import Mathlib

/-!
Shallow embedding of the user lifecycle service
(`src/backend/src/modules/admin/access/users/users.service.ts`).

Each service method is a short sequence of awaited calls to external
collaborators (repository, hash helper, mapper, pagination helper).  We embed
each method as a pure Lean function parameterized over the observable
behaviour of those collaborators: the repository's find result, the outcome
of `save`, the hash/compare functions and the mapper functions.  Thrown
JavaScript errors are modelled by the `JsError` record, which captures
exactly the features the service's `catch` blocks inspect (`error.code`,
`error instanceof TimeoutError`, `error instanceof NotFoundException`).
Every operation also returns the list of entities it passed to
`usersRepository.save`, in call order, so that "no persistence attempt"
claims are statements about that trace.
-/

namespace IZhoushan

/-- Modelled from the spec: the `UserStatus` enum
(`./user-status.enum`, not included under src/).  The spec lists
`Active`, `Blocked` among other domain statuses; the service only ever
assigns `Blocked`. -/
inductive UserStatus where
  | Active
  | Blocked
  | Inactive
deriving DecidableEq, Repr

/-- Modelled from the spec: Postgres error code for a uniqueness violation,
`DBErrorCode.PgUniqueConstraintViolation` (`@common/enums`, not under src/). -/
def DBErrorCode.PgUniqueConstraintViolation : String := "23505"

/-- Modelled from the spec: Postgres error code for a foreign-key violation,
`DBErrorCode.PgForeignKeyConstraintViolation` (`@common/enums`, not under src/). -/
def DBErrorCode.PgForeignKeyConstraintViolation : String := "23503"

/-- Modelled from the spec: Postgres error code for a not-null violation,
`DBErrorCode.PgNotNullConstraintViolation` (`@common/enums`, not under src/). -/
def DBErrorCode.PgNotNullConstraintViolation : String := "23502"

/-- The persisted user entity, restricted to the fields the service itself
reads or writes (`password`, `status`, plus identity attributes). -/
structure UserEntity where
  id : String
  username : String
  password : String
  status : UserStatus
deriving DecidableEq, Repr

/-- Observable shape of a thrown JavaScript error, as inspected by the
service's `catch` blocks: an optional `code` field, whether the value is an
`instanceof TimeoutError`, and whether it is an `instanceof NotFoundException`. -/
structure JsError where
  code : Option String
  isTimeoutError : Bool
  isNotFoundException : Bool
deriving DecidableEq, Repr

/-- The `new NotFoundException()` value thrown inside `getUsers` for an
empty page. -/
def notFoundException : JsError :=
  { code := none, isTimeoutError := false, isNotFoundException := true }

/-- The fixed error taxonomy the service surfaces to callers.
`UserExists` carries the username passed to `UserExistsException`; in
`updateUser` that is `userDto.username` of a partial DTO, which may be
`undefined`, hence `Option String`. -/
inductive ServiceError where
  | NotFound
  | UserExists (username : Option String)
  | ForeignKeyConflict
  | InvalidCurrentPassword
  | RequestTimeout
  | InternalError
deriving DecidableEq, Repr

/-- Outcome of `blockUser`, the one method that can dereference an absent
fetch result: `crash` is the uncaught `TypeError` raised by
`userEntity.status = ...` when `findOne` returned `undefined`. -/
inductive Outcome (α : Type u) where
  | ok (a : α)
  | err (e : ServiceError)
  | crash
deriving DecidableEq, Repr

/-- Modelled from the spec: creation input DTO (`CreateUserRequestDto`,
dtos/ not under src/): username and plaintext password, plus relational
fields consumed only by the (abstract) mapper. -/
structure CreateUserRequestDto where
  username : String
  password : String
deriving DecidableEq, Repr

/-- Modelled from the spec: simple creation input DTO
(`CreateUserBaseRequestDto`, dtos/ not under src/): like the full input but
without relational fields. -/
structure CreateUserBaseRequestDto where
  username : String
  password : String
deriving DecidableEq, Repr

/-- Modelled from the spec: partial update input
(`Partial<UpdateUserRequestDto>`): every field optional; the service itself
reads only `username` (in the uniqueness-violation branch). -/
structure UpdateUserRequestDto where
  username : Option String
deriving DecidableEq, Repr

/-- The change-password request, destructured by the service into
`currentPassword` and `newPassword`. -/
structure ChangePasswordRequestDto where
  currentPassword : String
  newPassword : String
deriving DecidableEq, Repr

/-- Modelled from the spec: the pagination envelope
(`PaginationResponseDto`, `@common/dtos` not under src/): total count plus
the ordered sequence of result DTOs. -/
structure PaginationResponseDto (Dto : Type u) where
  totalRecords : Nat
  content : List Dto
deriving DecidableEq, Repr

/-- Modelled from the spec: `Pagination.of` (`@helpers`, not under src/)
"turns a page request + total count + item list into a paged response
envelope" whose item sequence "follows repository query order, not
re-sorted". -/
def Pagination.of {Pg : Type u} {Dto : Type v} (_pagination : Pg)
    (totalUsers : Nat) (dtos : List Dto) : PaginationResponseDto Dto :=
  { totalRecords := totalUsers, content := dtos }

namespace UsersService

/-- The `catch` block of `getUsers` (lines 59–68): an internal
`NotFoundException` is re-thrown as a fresh `NotFoundException`, a
`TimeoutError` becomes `RequestTimeoutException`, anything else becomes
`InternalServerErrorException`. -/
def getUsersCatch (error : JsError) : ServiceError :=
  if error.isNotFoundException then ServiceError.NotFound
  else if error.isTimeoutError then ServiceError.RequestTimeout
  else ServiceError.InternalError

/-- `Promise.all(userEntities.map(f))` with a possibly rejecting `f`:
succeeds with the element-wise results in order, or rejects with the
error of a failing element. -/
def promiseAllMap {α : Type u} {β : Type v} (f : α → Except JsError β) :
    List α → Except JsError (List β)
  | [] => Except.ok []
  | a :: rest =>
    match f a, promiseAllMap f rest with
    | Except.ok b, Except.ok bs => Except.ok (b :: bs)
    | Except.error e, _ => Except.error e
    | Except.ok _, Except.error e => Except.error e

/-- The `try` body of `getUsers` (lines 46–58): fetch page and count, throw
`NotFoundException` on an empty page or zero total, map each entity to a DTO
with relations, wrap via `Pagination.of`. -/
def getUsersTry {Pg : Type u} {Dto : Type v}
    (getUsersAndCount : Except JsError (List UserEntity × Nat))
    (toDtoWithRelations : UserEntity → Except JsError Dto)
    (pagination : Pg) :
    Except JsError (PaginationResponseDto Dto) :=
  match getUsersAndCount with
  | Except.error e => Except.error e
  | Except.ok (userEntities, totalUsers) =>
    if userEntities.length = 0 ∨ totalUsers = 0 then
      Except.error notFoundException
    else
      match promiseAllMap toDtoWithRelations userEntities with
      | Except.error e => Except.error e
      | Except.ok userDtos => Except.ok (Pagination.of pagination totalUsers userDtos)

/-- `getUsers` (lines 43–69): the `try` body with its `catch` translation. -/
def getUsers {Pg : Type u} {Dto : Type v}
    (getUsersAndCount : Except JsError (List UserEntity × Nat))
    (toDtoWithRelations : UserEntity → Except JsError Dto)
    (pagination : Pg) :
    Except ServiceError (PaginationResponseDto Dto) :=
  match getUsersTry getUsersAndCount toDtoWithRelations pagination with
  | Except.ok r => Except.ok r
  | Except.error e => Except.error (getUsersCatch e)

/-- The `catch` block of `createUser` (lines 100–115). -/
def createUserCatch (username : String) (error : JsError) : ServiceError :=
  if error.code = some DBErrorCode.PgUniqueConstraintViolation then
    ServiceError.UserExists (some username)
  else if error.code = some DBErrorCode.PgForeignKeyConstraintViolation ∨
      error.code = some DBErrorCode.PgNotNullConstraintViolation then
    ServiceError.ForeignKeyConflict
  else if error.isTimeoutError then ServiceError.RequestTimeout
  else ServiceError.InternalError

/-- The `catch` block of `createUserBase` (lines 131–147); it additionally
calls `Logger.error` in the foreign-key branch, which has no effect on the
produced error. -/
def createUserBaseCatch (username : String) (error : JsError) : ServiceError :=
  if error.code = some DBErrorCode.PgUniqueConstraintViolation then
    ServiceError.UserExists (some username)
  else if error.code = some DBErrorCode.PgForeignKeyConstraintViolation ∨
      error.code = some DBErrorCode.PgNotNullConstraintViolation then
    ServiceError.ForeignKeyConflict
  else if error.isTimeoutError then ServiceError.RequestTimeout
  else ServiceError.InternalError

/-- `createUser` (lines 92–116): map the DTO to an entity, overwrite its
password with the hash of that entity's password, save, map `save`'s return
value to the response DTO; failures go through `createUserCatch`.
The second component is the trace of entities passed to `save`. -/
def createUser {Dto : Type u}
    (toCreateEntity : CreateUserRequestDto → UserEntity)
    (encrypt : String → String)
    (save : UserEntity → Except JsError UserEntity)
    (toDto : UserEntity → Dto)
    (userDto : CreateUserRequestDto) :
    Except ServiceError Dto × List UserEntity :=
  let userEntity := toCreateEntity userDto
  let userEntity := { userEntity with password := encrypt userEntity.password }
  match save userEntity with
  | Except.ok saved => (Except.ok (toDto saved), [userEntity])
  | Except.error e => (Except.error (createUserCatch userDto.username e), [userEntity])

/-- `createUserBase` (lines 123–148): identical to `createUser` except for
the mapping step (`toCreateSimpleEntity`) and its own `catch` block. -/
def createUserBase {Dto : Type u}
    (toCreateSimpleEntity : CreateUserBaseRequestDto → UserEntity)
    (encrypt : String → String)
    (save : UserEntity → Except JsError UserEntity)
    (toDto : UserEntity → Dto)
    (userDto : CreateUserBaseRequestDto) :
    Except ServiceError Dto × List UserEntity :=
  let userEntity := toCreateSimpleEntity userDto
  let userEntity := { userEntity with password := encrypt userEntity.password }
  match save userEntity with
  | Except.ok saved => (Except.ok (toDto saved), [userEntity])
  | Except.error e => (Except.error (createUserBaseCatch userDto.username e), [userEntity])

/-- The `catch` block of `updateUser` (lines 169–184); note the username it
hands to `UserExistsException` is the partial DTO's `username`, which may be
absent. -/
def updateUserCatch (username : Option String) (error : JsError) : ServiceError :=
  if error.code = some DBErrorCode.PgUniqueConstraintViolation then
    ServiceError.UserExists username
  else if error.code = some DBErrorCode.PgForeignKeyConstraintViolation ∨
      error.code = some DBErrorCode.PgNotNullConstraintViolation then
    ServiceError.ForeignKeyConflict
  else if error.isTimeoutError then ServiceError.RequestTimeout
  else ServiceError.InternalError

/-- `updateUser` (lines 156–185): fetch the entity (fail `NotFound` if
absent, before the `try`), merge the partial DTO via `toUpdateEntity`, save,
map `save`'s return value; failures inside the `try` go through
`updateUserCatch`. -/
def updateUser {Dto : Type u}
    (findOne : String → Option UserEntity)
    (toUpdateEntity : UserEntity → UpdateUserRequestDto → UserEntity)
    (save : UserEntity → Except JsError UserEntity)
    (toDto : UserEntity → Dto)
    (id : String) (userDto : UpdateUserRequestDto) :
    Except ServiceError Dto × List UserEntity :=
  match findOne id with
  | none => (Except.error ServiceError.NotFound, [])
  | some userEntity =>
    let userEntity := toUpdateEntity userEntity userDto
    match save userEntity with
    | Except.ok saved => (Except.ok (toDto saved), [userEntity])
    | Except.error e => (Except.error (updateUserCatch userDto.username e), [userEntity])

/-- The `catch` block of `changePassword` (lines 218–224): only
timeout-vs-internal translation. -/
def changePasswordCatch (error : JsError) : ServiceError :=
  if error.isTimeoutError then ServiceError.RequestTimeout
  else ServiceError.InternalError

/-- `changePassword` (lines 193–225): fetch by id (fail `NotFound` if
absent), compare `currentPassword` against the stored hash (fail
`InvalidCurrentPassword` if it does not match) — both before the `try` —
then hash `newPassword` onto the entity, save (return value discarded), and
map the locally mutated entity to the response DTO. -/
def changePassword {Dto : Type u}
    (findOne : String → Option UserEntity)
    (compare : String → String → Bool)
    (encrypt : String → String)
    (save : UserEntity → Except JsError UserEntity)
    (toDto : UserEntity → Dto)
    (changePw : ChangePasswordRequestDto) (userId : String) :
    Except ServiceError Dto × List UserEntity :=
  match findOne userId with
  | none => (Except.error ServiceError.NotFound, [])
  | some userEntity =>
    let passwordMatch := compare changePw.currentPassword userEntity.password
    if !passwordMatch then
      (Except.error ServiceError.InvalidCurrentPassword, [])
    else
      let userEntity := { userEntity with password := encrypt changePw.newPassword }
      match save userEntity with
      | Except.ok _ => (Except.ok (toDto userEntity), [userEntity])
      | Except.error e => (Except.error (changePasswordCatch e), [userEntity])

/-- The `catch` block of `blockUser` (lines 233–239). -/
def blockUserCatch (error : JsError) : ServiceError :=
  if error.isTimeoutError then ServiceError.RequestTimeout
  else ServiceError.InternalError

/-- `blockUser` (lines 227–240): fetch by id with no absence guard — on a
missing entity the assignment `userEntity.status = UserStatus.Blocked`
dereferences `undefined` and crashes before the `try` — otherwise set the
status to `Blocked`, save (return value discarded), and map the locally
mutated entity. -/
def blockUser {Dto : Type u}
    (findOne : String → Option UserEntity)
    (save : UserEntity → Except JsError UserEntity)
    (toDto : UserEntity → Dto)
    (id : String) :
    Outcome Dto × List UserEntity :=
  match findOne id with
  | none => (Outcome.crash, [])
  | some userEntity =>
    let userEntity := { userEntity with status := UserStatus.Blocked }
    match save userEntity with
    | Except.ok _ => (Outcome.ok (toDto userEntity), [userEntity])
    | Except.error e => (Outcome.err (blockUserCatch e), [userEntity])

end UsersService

/-! ## Helper lemmas -/

namespace UsersService

theorem promiseAllMap_ok_of_pure {α : Type u} {β : Type v}
    (f : α → Except JsError β) (g : α → β) (hf : ∀ a, f a = Except.ok (g a)) :
    ∀ l : List α, promiseAllMap f l = Except.ok (l.map g) := by
  intro l
  induction l with
  | nil => simp [promiseAllMap]
  | cons a rest ih => simp [promiseAllMap, hf a, ih]

theorem changePasswordCatch_ne_invalid (e : JsError) :
    changePasswordCatch e ≠ ServiceError.InvalidCurrentPassword := by
  unfold changePasswordCatch
  split <;> simp

theorem updateUserCatch_ne_notFound (u : Option String) (e : JsError) :
    updateUserCatch u e ≠ ServiceError.NotFound := by
  unfold updateUserCatch
  split
  · simp
  · split
    · simp
    · split <;> simp

end UsersService

/-! ## Claim theorems -/

open UsersService

/-- Claim C1: when the user exists but the supplied current password does not
verify against the stored hash, `changePassword` fails with
`InvalidCurrentPassword`, issues no save (stored state untouched), and this
error is not producible by the method's generic error translation
(`changePasswordCatch` never yields `InvalidCurrentPassword`). -/
theorem changePassword_wrong_current_fails_before_save {Dto : Type u}
    (findOne : String → Option UserEntity) (compare : String → String → Bool)
    (encrypt : String → String) (save : UserEntity → Except JsError UserEntity)
    (toDto : UserEntity → Dto) (changePw : ChangePasswordRequestDto)
    (userId : String) (u : UserEntity)
    (hfind : findOne userId = some u)
    (hcmp : compare changePw.currentPassword u.password = false) :
    changePassword findOne compare encrypt save toDto changePw userId
      = (Except.error ServiceError.InvalidCurrentPassword, [])
    ∧ ∀ e : JsError, changePasswordCatch e ≠ ServiceError.InvalidCurrentPassword := by
  constructor
  · simp [changePassword, hfind, hcmp]
  · exact changePasswordCatch_ne_invalid

/-- Sample stored user used by the witness instantiations. -/
def wUser : UserEntity :=
  { id := "u1", username := "alice", password := "hash0", status := UserStatus.Active }

/-- Witness for C1 at a concrete repository and comparator. -/
theorem changePassword_wrong_current_fails_before_save_witness :
    changePassword (fun _ => some wUser) (fun _ _ => false)
        (fun s => s) (fun e => Except.ok e) (fun e : UserEntity => e)
        { currentPassword := "guess", newPassword := "new" } "u1"
      = (Except.error ServiceError.InvalidCurrentPassword, [])
    ∧ changePasswordCatch { code := none, isTimeoutError := false, isNotFoundException := false }
        ≠ ServiceError.InvalidCurrentPassword := by
  have h := changePassword_wrong_current_fails_before_save
    (fun _ => some wUser) (fun _ _ => false) (fun s => s) (fun e => Except.ok e)
    (fun e : UserEntity => e) { currentPassword := "guess", newPassword := "new" }
    "u1" wUser rfl rfl
  exact ⟨h.1, h.2 _⟩

/-- Claim C2: both creation variants pass to `save` exactly one entity, whose
password field is `encrypt` applied to the mapped entity's password — the
plaintext credential is never the persisted value. -/
theorem create_saves_hashed_password {Dto : Type u}
    (toCreateEntity : CreateUserRequestDto → UserEntity)
    (toCreateSimpleEntity : CreateUserBaseRequestDto → UserEntity)
    (encrypt : String → String) (save : UserEntity → Except JsError UserEntity)
    (toDto : UserEntity → Dto)
    (userDto : CreateUserRequestDto) (userDtoB : CreateUserBaseRequestDto) :
    (createUser toCreateEntity encrypt save toDto userDto).2
      = [{ toCreateEntity userDto with
            password := encrypt (toCreateEntity userDto).password }]
    ∧ (createUserBase toCreateSimpleEntity encrypt save toDto userDtoB).2
      = [{ toCreateSimpleEntity userDtoB with
            password := encrypt (toCreateSimpleEntity userDtoB).password }] := by
  constructor
  · cases h : save { toCreateEntity userDto with
        password := encrypt (toCreateEntity userDto).password } <;>
      simp [createUser, h]
  · cases h : save { toCreateSimpleEntity userDtoB with
        password := encrypt (toCreateSimpleEntity userDtoB).password } <;>
      simp [createUserBase, h]

/-- Claim C4: when the repository returns an empty entity list or a zero total,
`getUsers` fails with `NotFound` (so no page envelope, empty or otherwise,
is returned). -/
theorem getUsers_empty_result_not_found {Pg : Type u} {Dto : Type v}
    (toDtoWithRelations : UserEntity → Except JsError Dto) (pagination : Pg)
    (entities : List UserEntity) (total : Nat)
    (h : entities = [] ∨ total = 0) :
    getUsers (Except.ok (entities, total)) toDtoWithRelations pagination
      = Except.error ServiceError.NotFound := by
  simp [getUsers, getUsersTry, h, getUsersCatch, notFoundException]

/-- Witness for C4 on a concrete empty page. -/
theorem getUsers_empty_result_not_found_witness :
    getUsers (Except.ok ([], 0)) (fun e : UserEntity => Except.ok e) ()
      = Except.error ServiceError.NotFound :=
  getUsers_empty_result_not_found (fun e : UserEntity => Except.ok e) () [] 0
    (Or.inl rfl)

/-- Claim C6: `blockUser` has no not-found guard: on an id with no user it
crashes (dereference of an absent fetch result) before any save, and in
particular does not fail with `NotFound`. -/
theorem blockUser_missing_id_unguarded {Dto : Type u}
    (findOne : String → Option UserEntity)
    (save : UserEntity → Except JsError UserEntity)
    (toDto : UserEntity → Dto) (id : String)
    (h : findOne id = none) :
    blockUser findOne save toDto id = ((Outcome.crash : Outcome Dto), [])
    ∧ (blockUser findOne save toDto id).1 ≠ Outcome.err ServiceError.NotFound := by
  have h1 : blockUser findOne save toDto id = ((Outcome.crash : Outcome Dto), []) := by
    simp [blockUser, h]
  exact ⟨h1, by simp [h1]⟩

/-- Witness for C6 on a repository that holds no users. -/
theorem blockUser_missing_id_unguarded_witness :
    blockUser (fun _ => none) (fun e => Except.ok e)
        (fun e : UserEntity => e) "ghost"
      = ((Outcome.crash : Outcome UserEntity), [])
    ∧ (blockUser (fun _ => none) (fun e => Except.ok e)
        (fun e : UserEntity => e) "ghost").1 ≠ Outcome.err ServiceError.NotFound :=
  blockUser_missing_id_unguarded (fun _ => none) (fun e => Except.ok e)
    (fun e : UserEntity => e) "ghost" rfl

/-- Claim C7: `updateUser` on a missing id fails with `NotFound` before any merge
or save, and `NotFound` is not producible by the operation's generic error
translation (`updateUserCatch` never yields `NotFound`, so the failure is
never rewrapped as `InternalError` — nor could a `NotFound` arise from it). -/
theorem updateUser_missing_id_not_found {Dto : Type u}
    (findOne : String → Option UserEntity)
    (toUpdateEntity : UserEntity → UpdateUserRequestDto → UserEntity)
    (save : UserEntity → Except JsError UserEntity)
    (toDto : UserEntity → Dto) (id : String) (userDto : UpdateUserRequestDto)
    (h : findOne id = none) :
    updateUser findOne toUpdateEntity save toDto id userDto
      = (Except.error ServiceError.NotFound, [])
    ∧ ∀ (u : Option String) (e : JsError),
        updateUserCatch u e ≠ ServiceError.NotFound := by
  constructor
  · simp [updateUser, h]
  · exact updateUserCatch_ne_notFound

/-- Witness for C7 on a repository that holds no users. -/
theorem updateUser_missing_id_not_found_witness :
    updateUser (fun _ => none) (fun u _ => u)
        (fun e => Except.ok e) (fun e : UserEntity => e) "ghost" { username := none }
      = (Except.error ServiceError.NotFound, [])
    ∧ updateUserCatch none
        { code := none, isTimeoutError := false, isNotFoundException := false }
        ≠ ServiceError.NotFound := by
  have h := updateUser_missing_id_not_found (fun _ => none)
    (fun u _ => u) (fun e => Except.ok e) (fun e : UserEntity => e) "ghost"
    { username := none } rfl
  exact ⟨h.1, h.2 _ _⟩

/-- Claim C3: on a failing save, `createUser` and `createUserBase` translate the
error identically: uniqueness violation → `UserExists` with the requested
username, foreign-key or not-null violation → `ForeignKeyConflict`,
timeout → `RequestTimeout`, anything else → `InternalError`. -/
theorem create_variants_identical_error_translation {Dto : Type u}
    (toCreateEntity : CreateUserRequestDto → UserEntity)
    (toCreateSimpleEntity : CreateUserBaseRequestDto → UserEntity)
    (encrypt : String → String) (toDto : UserEntity → Dto)
    (userDto : CreateUserRequestDto) (userDtoB : CreateUserBaseRequestDto)
    (e : JsError)
    (hu : userDto.username = userDtoB.username) :
    ((createUser toCreateEntity encrypt (fun _ => Except.error e) toDto userDto).1
      = (createUserBase toCreateSimpleEntity encrypt (fun _ => Except.error e) toDto userDtoB).1)
    ∧ (e.code = some DBErrorCode.PgUniqueConstraintViolation →
        (createUser toCreateEntity encrypt (fun _ => Except.error e) toDto userDto).1
          = Except.error (ServiceError.UserExists (some userDto.username)))
    ∧ (e.code = some DBErrorCode.PgForeignKeyConstraintViolation ∨
        e.code = some DBErrorCode.PgNotNullConstraintViolation →
        (createUser toCreateEntity encrypt (fun _ => Except.error e) toDto userDto).1
          = Except.error ServiceError.ForeignKeyConflict)
    ∧ (e.code ≠ some DBErrorCode.PgUniqueConstraintViolation →
        e.code ≠ some DBErrorCode.PgForeignKeyConstraintViolation →
        e.code ≠ some DBErrorCode.PgNotNullConstraintViolation →
        e.isTimeoutError = true →
        (createUser toCreateEntity encrypt (fun _ => Except.error e) toDto userDto).1
          = Except.error ServiceError.RequestTimeout)
    ∧ (e.code ≠ some DBErrorCode.PgUniqueConstraintViolation →
        e.code ≠ some DBErrorCode.PgForeignKeyConstraintViolation →
        e.code ≠ some DBErrorCode.PgNotNullConstraintViolation →
        e.isTimeoutError = false →
        (createUser toCreateEntity encrypt (fun _ => Except.error e) toDto userDto).1
          = Except.error ServiceError.InternalError) := by
  refine ⟨?_, ?_, ?_, ?_, ?_⟩
  · simp [createUser, createUserBase, createUserCatch, createUserBaseCatch, hu]
  · intro h
    simp [createUser, createUserCatch, h]
  · rintro (h | h) <;>
      simp [createUser, createUserCatch, h, DBErrorCode.PgUniqueConstraintViolation,
        DBErrorCode.PgForeignKeyConstraintViolation, DBErrorCode.PgNotNullConstraintViolation]
  · intro h1 h2 h3 ht
    simp [createUser, createUserCatch, h1, h2, h3, ht]
  · intro h1 h2 h3 ht
    simp [createUser, createUserCatch, h1, h2, h3, ht]

/-- Concrete uniqueness-violation error used by witnesses. -/
def wUniqueErr : JsError :=
  { code := some DBErrorCode.PgUniqueConstraintViolation, isTimeoutError := false,
    isNotFoundException := false }

/-- Concrete foreign-key-violation error used by witnesses. -/
def wFkErr : JsError :=
  { code := some DBErrorCode.PgForeignKeyConstraintViolation, isTimeoutError := false,
    isNotFoundException := false }

/-- Concrete timeout error used by witnesses. -/
def wTimeoutErr : JsError :=
  { code := none, isTimeoutError := true, isNotFoundException := false }

/-- Concrete unrecognized error used by witnesses. -/
def wOtherErr : JsError :=
  { code := none, isTimeoutError := false, isNotFoundException := false }

/-- Witness for C3: the two variants agree on a concrete uniqueness
violation, and each enumerated error code maps as stated. -/
theorem create_variants_identical_error_translation_witness :
    ((createUser (fun _ => wUser) (fun s => s) (fun _ => Except.error wUniqueErr)
        (fun e : UserEntity => e) { username := "alice", password := "p" }).1
      = (createUserBase (fun _ => wUser) (fun s => s) (fun _ => Except.error wUniqueErr)
        (fun e : UserEntity => e) { username := "alice", password := "p" }).1)
    ∧ ((createUser (fun _ => wUser) (fun s => s) (fun _ => Except.error wUniqueErr)
        (fun e : UserEntity => e) { username := "alice", password := "p" }).1
      = Except.error (ServiceError.UserExists (some "alice")))
    ∧ ((createUser (fun _ => wUser) (fun s => s) (fun _ => Except.error wFkErr)
        (fun e : UserEntity => e) { username := "alice", password := "p" }).1
      = Except.error ServiceError.ForeignKeyConflict)
    ∧ ((createUser (fun _ => wUser) (fun s => s) (fun _ => Except.error wTimeoutErr)
        (fun e : UserEntity => e) { username := "alice", password := "p" }).1
      = Except.error ServiceError.RequestTimeout)
    ∧ ((createUser (fun _ => wUser) (fun s => s) (fun _ => Except.error wOtherErr)
        (fun e : UserEntity => e) { username := "alice", password := "p" }).1
      = Except.error ServiceError.InternalError) := by
  refine ⟨?_, ?_, ?_, ?_, ?_⟩
  · exact (create_variants_identical_error_translation
      (fun _ => wUser) (fun _ => wUser) (fun s => s) (fun e : UserEntity => e)
      { username := "alice", password := "p" } { username := "alice", password := "p" }
      wUniqueErr rfl).1
  · exact (create_variants_identical_error_translation
      (fun _ => wUser) (fun _ => wUser) (fun s => s) (fun e : UserEntity => e)
      { username := "alice", password := "p" } { username := "alice", password := "p" }
      wUniqueErr rfl).2.1 rfl
  · exact (create_variants_identical_error_translation
      (fun _ => wUser) (fun _ => wUser) (fun s => s) (fun e : UserEntity => e)
      { username := "alice", password := "p" } { username := "alice", password := "p" }
      wFkErr rfl).2.2.1 (Or.inl rfl)
  · exact (create_variants_identical_error_translation
      (fun _ => wUser) (fun _ => wUser) (fun s => s) (fun e : UserEntity => e)
      { username := "alice", password := "p" } { username := "alice", password := "p" }
      wTimeoutErr rfl).2.2.2.1 (by simp [wTimeoutErr]) (by simp [wTimeoutErr])
      (by simp [wTimeoutErr]) rfl
  · exact (create_variants_identical_error_translation
      (fun _ => wUser) (fun _ => wUser) (fun s => s) (fun e : UserEntity => e)
      { username := "alice", password := "p" } { username := "alice", password := "p" }
      wOtherErr rfl).2.2.2.2 (by simp [wOtherErr]) (by simp [wOtherErr])
      (by simp [wOtherErr]) rfl

/-- Claim C5: `getUsers` error routing — the internal `NotFound` for an empty
page reaches the caller as `NotFound` (not rewrapped), a timeout from the
data layer surfaces as `RequestTimeout`, any other fetch failure surfaces
as `InternalError`, and a non-timeout, non-NotFound failure of the mapping
step also surfaces as `InternalError`.  (The envelope step, `Pagination.of`,
is a total pure function in this model, so it has no failure case.) -/
theorem getUsers_error_translation {Pg : Type u} {Dto : Type v}
    (toDtoWithRelations : UserEntity → Except JsError Dto) (pagination : Pg)
    (e : JsError) (entities : List UserEntity) (total : Nat) :
    ((entities = [] ∨ total = 0) →
      getUsers (Except.ok (entities, total)) toDtoWithRelations pagination
        = Except.error ServiceError.NotFound)
    ∧ (e.isNotFoundException = false → e.isTimeoutError = true →
        getUsers (Except.error e) toDtoWithRelations pagination
          = Except.error ServiceError.RequestTimeout)
    ∧ (e.isNotFoundException = false → e.isTimeoutError = false →
        getUsers (Except.error e) toDtoWithRelations pagination
          = Except.error ServiceError.InternalError)
    ∧ (entities ≠ [] → total ≠ 0 →
        promiseAllMap toDtoWithRelations entities = Except.error e →
        e.isNotFoundException = false → e.isTimeoutError = false →
        getUsers (Except.ok (entities, total)) toDtoWithRelations pagination
          = Except.error ServiceError.InternalError) := by
  refine ⟨?_, ?_, ?_, ?_⟩
  · intro h
    simp [getUsers, getUsersTry, h, getUsersCatch, notFoundException]
  · intro h1 h2
    simp [getUsers, getUsersTry, getUsersCatch, h1, h2]
  · intro h1 h2
    simp [getUsers, getUsersTry, getUsersCatch, h1, h2]
  · intro hne ht hmap h1 h2
    simp [getUsers, getUsersTry, getUsersCatch, hne, ht, hmap, h1, h2]

/-- Witness for C5 at concrete fetch and mapping outcomes. -/
theorem getUsers_error_translation_witness :
    (getUsers (Except.ok ([], 0)) (fun u : UserEntity => Except.ok u) ()
      = Except.error ServiceError.NotFound)
    ∧ (getUsers (Except.error wTimeoutErr) (fun u : UserEntity => Except.ok u) ()
      = Except.error ServiceError.RequestTimeout)
    ∧ (getUsers (Except.error wOtherErr) (fun u : UserEntity => Except.ok u) ()
      = Except.error ServiceError.InternalError)
    ∧ (getUsers (Except.ok ([wUser], 1))
        (fun _ : UserEntity => (Except.error wOtherErr : Except JsError UserEntity)) ()
      = Except.error ServiceError.InternalError) := by
  refine ⟨?_, ?_, ?_, ?_⟩
  · exact (getUsers_error_translation (fun u : UserEntity => Except.ok u) ()
      wOtherErr [] 0).1 (Or.inl rfl)
  · exact (getUsers_error_translation (fun u : UserEntity => Except.ok u) ()
      wTimeoutErr [] 0).2.1 rfl rfl
  · exact (getUsers_error_translation (fun u : UserEntity => Except.ok u) ()
      wOtherErr [] 0).2.2.1 rfl rfl
  · exact (getUsers_error_translation
      (fun _ : UserEntity => (Except.error wOtherErr : Except JsError UserEntity)) ()
      wOtherErr [wUser] 1).2.2.2 (by simp) (by simp) rfl rfl rfl

/-- Claim C8: for a non-empty fetched page whose entities all map successfully,
the envelope returned by `getUsers` carries exactly the element-wise image
of the fetched entity list, in fetch order. -/
theorem getUsers_preserves_fetch_order {Pg : Type u} {Dto : Type v}
    (toDtoWithRelations : UserEntity → Except JsError Dto) (g : UserEntity → Dto)
    (pagination : Pg) (entities : List UserEntity) (total : Nat)
    (hf : ∀ u, toDtoWithRelations u = Except.ok (g u))
    (hne : entities ≠ []) (ht : total ≠ 0) :
    getUsers (Except.ok (entities, total)) toDtoWithRelations pagination
      = Except.ok { totalRecords := total, content := entities.map g } := by
  simp [getUsers, getUsersTry, hne, ht,
    promiseAllMap_ok_of_pure toDtoWithRelations g hf, Pagination.of]

/-- Witness for C8 on a one-element page with the identity mapper. -/
theorem getUsers_preserves_fetch_order_witness :
    getUsers (Except.ok ([wUser], 1)) (fun u : UserEntity => Except.ok u) ()
      = Except.ok { totalRecords := 1, content := [wUser] } :=
  getUsers_preserves_fetch_order (fun u : UserEntity => Except.ok u)
    (fun u : UserEntity => u) () [wUser] 1 (fun _ => rfl) (by simp) (by simp)

/-- Claim C9: a uniqueness violation while persisting an update is reported as
`UserExists` carrying the partial DTO's `username` field — in particular,
when the partial input has no username, the carried username is absent
(`undefined`), not the stored entity's username. -/
theorem updateUser_unique_violation_carries_dto_username {Dto : Type u}
    (findOne : String → Option UserEntity)
    (toUpdateEntity : UserEntity → UpdateUserRequestDto → UserEntity)
    (toDto : UserEntity → Dto) (id : String) (u : UserEntity)
    (userDto : UpdateUserRequestDto) (e : JsError)
    (hfind : findOne id = some u)
    (hcode : e.code = some DBErrorCode.PgUniqueConstraintViolation) :
    (updateUser findOne toUpdateEntity (fun _ => Except.error e) toDto id userDto).1
      = Except.error (ServiceError.UserExists userDto.username)
    ∧ (userDto.username = none →
        (updateUser findOne toUpdateEntity (fun _ => Except.error e) toDto id userDto).1
          = Except.error (ServiceError.UserExists none)) := by
  have h1 : (updateUser findOne toUpdateEntity (fun _ => Except.error e) toDto id userDto).1
      = Except.error (ServiceError.UserExists userDto.username) := by
    simp [updateUser, hfind, updateUserCatch, hcode]
  exact ⟨h1, fun hn => by rw [h1, hn]⟩

/-- Witness for C9: an update without a username that hits a uniqueness
violation carries `none`, not the stored username. -/
theorem updateUser_unique_violation_carries_dto_username_witness :
    (updateUser (fun _ => some wUser) (fun u _ => u)
        (fun _ => Except.error wUniqueErr)
        (fun u : UserEntity => u) "u1" { username := none }).1
      = Except.error (ServiceError.UserExists none) := by
  exact (updateUser_unique_violation_carries_dto_username
    (fun _ => some wUser) (fun u _ => u) (fun u : UserEntity => u) "u1" wUser
    { username := none } wUniqueErr rfl rfl).2 rfl

/-- Saved entity returned by the repository in the C10 witness, distinct
from the locally mutated one. -/
def wSaved : UserEntity :=
  { id := "u1", username := "alice", password := "hash1", status := UserStatus.Active }

/-- Claim C10: on a successful save returning `saved`, `changePassword` and
`blockUser` map the locally mutated entity (new password hash, `Blocked`
status) — independent of `saved` — while `createUser` and `updateUser` map
the entity returned by `save`. -/
theorem response_entity_provenance {Dto : Type u}
    (findOne : String → Option UserEntity) (compare : String → String → Bool)
    (encrypt : String → String) (toDto : UserEntity → Dto)
    (toCreateEntity : CreateUserRequestDto → UserEntity)
    (toUpdateEntity : UserEntity → UpdateUserRequestDto → UserEntity)
    (saved u : UserEntity) (userId : String)
    (cDto : CreateUserRequestDto) (uDto : UpdateUserRequestDto)
    (changePw : ChangePasswordRequestDto)
    (hfind : findOne userId = some u)
    (hcmp : compare changePw.currentPassword u.password = true) :
    ((changePassword findOne compare encrypt
        (fun _ => (Except.ok saved : Except JsError UserEntity)) toDto changePw userId).1
      = Except.ok (toDto { u with password := encrypt changePw.newPassword }))
    ∧ ((blockUser findOne (fun _ => (Except.ok saved : Except JsError UserEntity))
        toDto userId).1
      = Outcome.ok (toDto { u with status := UserStatus.Blocked }))
    ∧ ((createUser toCreateEntity encrypt
        (fun _ => (Except.ok saved : Except JsError UserEntity)) toDto cDto).1
      = Except.ok (toDto saved))
    ∧ ((updateUser findOne toUpdateEntity
        (fun _ => (Except.ok saved : Except JsError UserEntity)) toDto userId uDto).1
      = Except.ok (toDto saved)) := by
  refine ⟨?_, ?_, ?_, ?_⟩
  · simp [changePassword, hfind, hcmp]
  · simp [blockUser, hfind]
  · simp [createUser]
  · simp [updateUser, hfind]

/-- Witness for C10: with a repository returning a distinct saved entity,
change-password and block report the locally mutated entity while create
and update report the saved one. -/
theorem response_entity_provenance_witness :
    ((changePassword (fun _ => some wUser) (fun _ _ => true)
        (fun s => s) (fun _ => (Except.ok wSaved : Except JsError UserEntity))
        (fun u : UserEntity => u) { currentPassword := "old", newPassword := "new" } "u1").1
      = Except.ok { wUser with password := "new" })
    ∧ ((blockUser (fun _ => some wUser)
        (fun _ => (Except.ok wSaved : Except JsError UserEntity))
        (fun u : UserEntity => u) "u1").1
      = Outcome.ok { wUser with status := UserStatus.Blocked })
    ∧ ((createUser (fun _ => wUser) (fun s => s)
        (fun _ => (Except.ok wSaved : Except JsError UserEntity)) (fun u : UserEntity => u)
        { username := "alice", password := "p" }).1
      = Except.ok wSaved)
    ∧ ((updateUser (fun _ => some wUser) (fun u _ => u)
        (fun _ => (Except.ok wSaved : Except JsError UserEntity)) (fun u : UserEntity => u)
        "u1" { username := none }).1
      = Except.ok wSaved) :=
  response_entity_provenance (fun _ => some wUser)
    (fun _ _ => true) (fun s => s) (fun u : UserEntity => u) (fun _ => wUser)
    (fun u _ => u) wSaved wUser "u1" { username := "alice", password := "p" }
    { username := none } { currentPassword := "old", newPassword := "new" } rfl rfl

end IZhoushan
